import Mathlib

/-!
Shallow embedding of the async-chat orchestrator core: the dispatcher
(stream routing, node pre-selection, model fan-out), the worker engine
(idempotent claim, node acquisition, context reconstruction, refusal
audit, node load accounting) and the DB-backed router, translated from
the Python sources into executable Lean definitions, together with
theorems settling the specification claims.

Database tables are modelled as lists of rows; SQL row-level updates
become list transformations; randomness (random.choice, random.sample)
is modelled by explicit index oracles ranging over all possible draws;
fallible DB access is modelled by an explicit availability flag where a
claim depends on it.  Timestamps are integer seconds.
-/

namespace AsyncChat

/-- Task lifecycle states (PENDING=0, SUCCESS=1, FAILED=2, PROCESSING=3 in the store). -/
inductive TaskStatus where
  | PENDING
  | SUCCESS
  | FAILED
  | PROCESSING
deriving DecidableEq, Repr

/-- A row of the tasks table (common.models.Task). -/
structure Task where
  task_id : String
  batch_id : String := ""
  conversation_id : Option String := none
  prompt : String := ""
  model_name : String := ""
  status : TaskStatus := .PENDING
  task_type : String := "TEXT"
  file_paths : List String := []
  response_text : Option String := none
  error_msg : Option String := none
  cost_time : Option Int := none
  created_at : Int := 0
  updated_at : Int := 0
deriving DecidableEq, Repr

/-- A row of the Gemini service-node table (common.models.GeminiServiceNode). -/
structure Node where
  node_url : String
  status : String := "HEALTHY"
  last_heartbeat : Int := 0
  current_tasks : Nat := 0
  dispatched_tasks : Int := 0
deriving DecidableEq, Repr

/-- The reserved session_metadata keys read by the router; `extra`
stands for all other (ignored) metadata keys. -/
structure SessionMeta where
  assigned_node_url : Option String := none
  node_slots : List (String × String) := []
  extra : List (String × String) := []
deriving DecidableEq, Repr

/-- A row of the conversations table. `session_metadata = none` models a
null (or empty, hence falsy) metadata JSON object. -/
structure Conversation where
  conversation_id : String
  session_metadata : Option SessionMeta := none
  updated_at : Int := 0
deriving DecidableEq, Repr

/-- A chat message as sent to the backend. -/
structure Msg where
  role : String
  content : String
deriving DecidableEq, Repr

/-- The decoded stream-entry payload (§6.2): task_id, conversation_id,
prompt, model, file_paths, target_node_url. -/
structure TaskData where
  task_id : String
  conversation_id : Option String := none
  prompt : String := ""
  model : String := ""
  file_paths : List String := []
  target_node_url : Option String := none
deriving DecidableEq, Repr

/-- `pat` is a prefix of `s` (on character lists). -/
def isPrefixList : List Char → List Char → Bool
  | [], _ => true
  | _ :: _, [] => false
  | a :: as, b :: bs => a == b && isPrefixList as bs

/-- `pat` occurs at some position of `s` (on character lists). -/
def containsSubAux (pat : List Char) : List Char → Bool
  | [] => isPrefixList pat []
  | c :: rest => isPrefixList pat (c :: rest) || containsSubAux pat rest

/-- Python substring containment: `pat in s`. -/
def containsSub (pat s : String) : Bool :=
  containsSubAux pat.toList s.toList

/-- ASCII lower-casing, as str.lower acts on the identifiers used here
(CJK characters are unaffected by lower-casing). -/
def charLower (c : Char) : Char :=
  if 'A' ≤ c && c ≤ 'Z' then Char.ofNat (c.toNat + 32) else c

def pyLower (s : String) : String :=
  String.mk (s.toList.map charLower)

/-- str.strip of surrounding whitespace. -/
def isSpaceChar (c : Char) : Bool :=
  c == ' ' || c == '\t' || c == '\n' || c == '\r'

def pyStrip (s : String) : String :=
  String.mk (((s.toList.dropWhile isSpaceChar).reverse.dropWhile isSpaceChar).reverse)

/-- str.replace: replace every non-overlapping occurrence of `pat`
(non-empty) left to right; fuel-driven structural recursion. -/
def replaceFuel (pat rep : List Char) : Nat → List Char → List Char
  | _, [] => []
  | 0, s => s
  | fuel + 1, c :: rest =>
    if !pat.isEmpty && isPrefixList pat (c :: rest) then
      rep ++ replaceFuel pat rep fuel (List.drop (pat.length - 1) rest)
    else c :: replaceFuel pat rep fuel rest

def pyReplace (s pat rep : String) : String :=
  String.mk (replaceFuel pat.toList rep.toList s.toList.length s.toList)

/-- The prefix of `s` before the first occurrence of `pat`
(s.split(pat)[0] when pat occurs). -/
def takeUntilPat (pat : List Char) : List Char → List Char
  | [] => []
  | c :: rest => if isPrefixList pat (c :: rest) then [] else c :: takeUntilPat pat rest

/-- str.split(",") on character lists. -/
def splitComma : List Char → List (List Char)
  | [] => [[]]
  | c :: rest =>
    if c == ',' then [] :: splitComma rest
    else
      match splitComma rest with
      | [] => [[c]]
      | g :: gs => (c :: g) :: gs

def pySplitComma (s : String) : List String :=
  (splitComma s.toList).map String.mk

/-- Stable-enough insertion sort standing for a SQL ORDER BY (which
fixes only the key order, not the order of ties). -/
def insertSorted (le : α → α → Bool) (x : α) : List α → List α
  | [] => [x]
  | y :: ys => if le x y then x :: y :: ys else y :: insertSorted le x ys

def sortByKey (le : α → α → Bool) : List α → List α
  | [] => []
  | x :: xs => insertSorted le x (sortByKey le xs)

/-- services/gateway/core/dispatch.py, dispatch_to_stream: choose the
stream key for a task payload.  A forced key wins; otherwise route by
substring match on the lower-cased model name, with default key
"qwen_stream" assigned first and the if/elif chain reassigning it. -/
def dispatch_to_stream (task_payload : TaskData) (optional_stream_key : Option String) : String :=
  match optional_stream_key with
  | some k => k
  | none =>
    let model_name := pyLower task_payload.model
    if containsSub "qwen" model_name || containsSub "千问" model_name then "qwen_stream"
    else if containsSub "deepseek" model_name then "deepseek_stream"
    else if containsSub "gemini" model_name then "gemini_stream"
    else if containsSub "sd" model_name || containsSub "stable" model_name then "sd_stream"
    else "qwen_stream"

/-- Spec §3 liveness: a node is alive iff status is HEALTHY and its
last heartbeat is within 30 seconds of now. -/
def aliveAt (now : Int) (n : Node) : Bool :=
  n.status == "HEALTHY" && now - 30 < n.last_heartbeat

/-- Sampling without replacement (random.sample) over an index oracle:
at each step remove the element at position `idx step % length` and
emit it.  Every without-replacement draw corresponds to some oracle. -/
def sampleIdx (idx : Nat → Nat) : Nat → Nat → List Node → List Node
  | _, 0, _ => []
  | _, _ + 1, [] => []
  | step, k + 1, x :: xs =>
    let i := idx step % (x :: xs).length
    (x :: xs).getD i x :: sampleIdx idx (step + 1) k ((x :: xs).eraseIdx i)

/-- Sampling with replacement (random.choices) over an index oracle. -/
def choicesIdx (idx : Nat → Nat) (k : Nat) : List Node → List Node
  | [] => []
  | x :: xs => (List.range k).map (fun step => (x :: xs).getD (idx step % (x :: xs).length) x)

/-- services/gateway/core/dispatch.py, _select_target_nodes: start from
a list of `concurrency` nulls; when a node family is given and
concurrency is positive, query nodes with status HEALTHY ordered by
current_tasks ascending limited to 10, pick
min(len(available), concurrency) of them (random.sample when
len(available) ≥ count_to_pick, random.choices otherwise) and write
them into the leading slots. -/
def availableNodes (db : List Node) : List Node :=
  (sortByKey (fun a b => a.current_tasks ≤ b.current_tasks)
    (db.filter (fun n => n.status == "HEALTHY"))).take 10

def selectTargetNodes (db : List Node) (concurrency : Nat) (node_model : Bool)
    (idx : Nat → Nat) : List (Option String) :=
  if node_model && decide (0 < concurrency) then
    let available_nodes := availableNodes db
    if available_nodes.isEmpty then List.replicate concurrency none
    else
      let count_to_pick := min available_nodes.length concurrency
      let selected_nodes :=
        if count_to_pick ≤ available_nodes.length then
          sampleIdx idx 0 count_to_pick available_nodes
        else
          choicesIdx idx count_to_pick available_nodes
      (List.range concurrency).map (fun i => (selected_nodes[i]?).map Node.node_url)
  else List.replicate concurrency none

/-- services/gateway/core/dispatch.py, dispatch_tasks: normalize the
comma-separated model selector (strip whitespace, drop empties and the
literal "on", default to gemini-2.5-flash). -/
def parseModelList (model_config : String) : List String :=
  let raw_list := ((pySplitComma model_config).map pyStrip).filter (fun m => m ≠ "")
  let model_list := raw_list.filter (fun m => pyLower m ≠ "on")
  if model_list.isEmpty then ["gemini-2.5-flash"] else model_list

/-- clamp(gemini_concurrency, 1, 2) as in dispatch_tasks. -/
def clampConcurrency (gemini_concurrency : Int) : Nat :=
  (min (max gemini_concurrency 1) 2).toNat

/-- A task row created by the dispatcher together with the stream entry
it enqueued. -/
structure CreatedTask where
  row : Task
  stream : String
  payload : TaskData
deriving DecidableEq, Repr

/-- services/gateway/core/dispatch.py, _dispatch_single_task: create
the Task row (display name gets the suffix, image mode prepends the
generation preamble to the worker prompt only) and enqueue the payload;
`mqErr = some e` models an enqueue exception, which marks the row
FAILED with an MQ error message. -/
def dispatch_single_task (batch_id conversation_id prompt base_model_name mode : String)
    (file_paths : List String) (target_node_url : Option String) (suffix : String)
    (target_stream : Option String) (new_task_id : String) (mqErr : Option String) :
    CreatedTask :=
  let display_model_name := if suffix ≠ "" then base_model_name ++ " " ++ suffix else base_model_name
  let worker_prompt :=
    if mode == "image" then "你作为 AI 图像生成引擎，需在响应中直接输出生成的图片\n" ++ prompt
    else prompt
  let new_task : Task :=
    { task_id := new_task_id
      batch_id := batch_id
      conversation_id := some conversation_id
      prompt := prompt
      model_name := display_model_name
      status := .PENDING
      task_type := if mode == "image" then "IMAGE" else if !file_paths.isEmpty then "MULTIMODAL" else "TEXT"
      file_paths := file_paths }
  let task_payload : TaskData :=
    { task_id := new_task_id
      conversation_id := some conversation_id
      prompt := worker_prompt
      model := base_model_name
      file_paths := file_paths
      target_node_url := target_node_url }
  let queue := dispatch_to_stream task_payload target_stream
  match mqErr with
  | none => ⟨new_task, queue, task_payload⟩
  | some e => ⟨{ new_task with status := .FAILED, error_msg := some ("MQ Error: " ++ e) }, queue, task_payload⟩

/-- services/gateway/core/dispatch.py, dispatch_tasks: fan the prompt
out into one task per model and per concurrency slot.  Gemini models
get concurrency clamp(gemini_concurrency,1,2), the Gemini node family
and the forced stream "gemini_stream", plus a "(#k)" suffix when
concurrent; other models get concurrency 1 and auto routing.  `idx` is
the per-model sampling oracle, `mq` the per-slot enqueue fault oracle.

The inner slot loop of dispatch_tasks: one task per pre-selected
target URL, with slot index `i` driving the "(#k)" suffix. -/
def dispatchSlots (batch_id conversation_id prompt model_name mode : String)
    (file_paths : List String) (isGemini is_gemini_concurrent : Bool)
    (mi : Nat) (mq : Nat → Nat → Option String) :
    Nat → List (Option String) → List CreatedTask
  | _, [] => []
  | i, target_url :: rest =>
    let target_stream := if isGemini then some "gemini_stream" else none
    let suffix := if is_gemini_concurrent then "(#" ++ toString (i + 1) ++ ")" else ""
    dispatch_single_task batch_id conversation_id prompt model_name mode file_paths
        target_url suffix target_stream ("task-" ++ toString mi ++ "-" ++ toString i) (mq mi i)
      :: dispatchSlots batch_id conversation_id prompt model_name mode file_paths
           isGemini is_gemini_concurrent mi mq (i + 1) rest

/-- The outer model loop of dispatch_tasks, with model index `mi`. -/
def dispatchModels (nodes : List Node) (batch_id conversation_id prompt mode : String)
    (file_paths : List String) (gemini_concurrency : Int)
    (idx : Nat → Nat → Nat) (mq : Nat → Nat → Option String) :
    Nat → List String → List CreatedTask
  | _, [] => []
  | mi, model_name :: rest =>
    let isGemini := containsSub "gemini" (pyLower model_name)
    let concurrency := if isGemini then clampConcurrency gemini_concurrency else 1
    let node_model := isGemini
    let is_gemini_concurrent := isGemini && decide (1 < concurrency)
    let target_urls := selectTargetNodes nodes concurrency node_model (idx mi)
    dispatchSlots batch_id conversation_id prompt model_name mode file_paths
        isGemini is_gemini_concurrent mi mq 0 target_urls
      ++ dispatchModels nodes batch_id conversation_id prompt mode file_paths
           gemini_concurrency idx mq (mi + 1) rest

def dispatch_tasks (nodes : List Node) (batch_id conversation_id prompt model_config mode : String)
    (file_paths : List String) (gemini_concurrency : Int)
    (idx : Nat → Nat → Nat) (mq : Nat → Nat → Option String) : List CreatedTask :=
  dispatchModels nodes batch_id conversation_id prompt mode file_paths gemini_concurrency
    idx mq 0 (parseModelList model_config)

/-- services/gateway/server.py, create_chat_task: the gateway handler
invokes dispatch_tasks without a gemini_concurrency argument, so the
Python default gemini_concurrency=1 applies. -/
def create_chat_task_dispatch (nodes : List Node) (batch_id conversation_id prompt model mode : String)
    (saved_file_paths : List String) (idx : Nat → Nat → Nat) (mq : Nat → Nat → Option String) :
    List CreatedTask :=
  dispatch_tasks nodes batch_id conversation_id prompt model mode saved_file_paths 1 idx mq

/-- Update the first list element satisfying `p` (an ORM query().first()
followed by attribute mutation and commit). -/
def updateFirst (p : α → Bool) (f : α → α) : List α → List α
  | [] => []
  | x :: xs => if p x then f x :: xs else x :: updateFirst p f xs

/-- services/workers/core/task_state.py, claim_task: atomic
UPDATE tasks SET status=PROCESSING WHERE task_id=? AND status=PENDING,
claimed iff exactly one row was affected.  `dbUp = false` models a
database error during the update: the exception is caught, the session
rolled back and False returned. -/
def claim_task (dbUp : Bool) (tasks : List Task) (task_id : String) : Bool × List Task :=
  if !dbUp then (false, tasks)
  else
    let affected := (tasks.filter (fun t => t.task_id == task_id && t.status == TaskStatus.PENDING)).length
    let tasks2 := tasks.map (fun t =>
      if t.task_id == task_id && t.status == TaskStatus.PENDING then
        { t with status := .PROCESSING }
      else t)
    (affected == 1, tasks2)

/-- services/workers/core/task_state.py, mark_task_failed: when task_id
is truthy and not "UNKNOWN", load the first row with that id and set
status=FAILED with the error message. -/
def mark_task_failed (tasks : List Task) (task_id error_msg : String) : List Task :=
  if task_id ≠ "" && task_id ≠ "UNKNOWN" then
    updateFirst (fun t => t.task_id == task_id)
      (fun t => { t with status := .FAILED, error_msg := some error_msg }) tasks
  else tasks

/-- services/workers/core/task_state.py, finish_task_success: load the
first row with the id; if found set response_text, status=SUCCESS,
cost_time and updated_at, refresh the conversation updated_at when a
conversation_id is given, and return True; return False when absent. -/
def finish_task_success (tasks : List Task) (convs : List Conversation) (now : Int)
    (task_id : String) (response_text : String) (cost_time : Int)
    (conversation_id : Option String) : Bool × List Task × List Conversation :=
  match tasks.find? (fun t => t.task_id == task_id) with
  | none => (false, tasks, convs)
  | some _ =>
    let tasks2 := updateFirst (fun t => t.task_id == task_id)
      (fun t => { t with response_text := some response_text, status := .SUCCESS,
                         cost_time := some cost_time, updated_at := now }) tasks
    let convs2 :=
      match conversation_id with
      | some cid => updateFirst (fun c => c.conversation_id == cid)
          (fun c => { c with updated_at := now }) convs
      | none => convs
    (true, tasks2, convs2)

/-- services/workers/core/task_state.py, update_node_load: unconditional
UPDATE nodes SET dispatched_tasks = dispatched_tasks + delta on the base
URL derived from the full API URL (prefix before "/v1/" when present,
otherwise the URL with every "/upload" removed).  No clamping. -/
def toBaseUrl (full_api_url : String) : String :=
  if containsSub "/v1/" full_api_url then
    String.mk (takeUntilPat "/v1/".toList full_api_url.toList)
  else pyReplace full_api_url "/upload" ""

def update_node_load (nodes : List Node) (full_api_url : String) (delta : Int) : List Node :=
  let base_url := toBaseUrl full_api_url
  nodes.map (fun n =>
    if n.node_url == base_url then { n with dispatched_tasks := n.dispatched_tasks + delta }
    else n)

/-- shared/core/auditor.py, process_ai_result: with a truthy (non-empty)
refusal keyword list, any keyword occurring as a substring of the AI
text marks the task FAILED with "生成失败: " prepended to the text and
returns False; otherwise the result of finish_task_success is returned. -/
def process_ai_result (tasks : List Task) (convs : List Conversation) (now : Int)
    (task_id ai_text : String) (cost_time : Int) (conversation_id : Option String)
    (refusal_keywords : List String) : Bool × List Task × List Conversation :=
  if !refusal_keywords.isEmpty && refusal_keywords.any (fun kw => containsSub kw ai_text) then
    (false, mark_task_failed tasks task_id ("生成失败: " ++ ai_text), convs)
  else
    finish_task_success tasks convs now task_id ai_text cost_time conversation_id

/-- Python dict assignment d[k] = v on a string-keyed mapping. -/
def setKey (k v : String) : List (String × String) → List (String × String)
  | [] => [(k, v)]
  | p :: rest => if p.1 == k then (k, v) :: rest else p :: setKey k v rest

/-- Result of the DB-backed router: the selected full API URL (none when
no active node exists), the node-drift flag, and the conversations table
after the sticky write-back. -/
structure RouteResult where
  url : Option String
  changed : Bool
  convs : List Conversation
deriving DecidableEq, Repr

def defaultNode : Node := ⟨"", "", 0, 0, 0⟩

/-- services/workers/core/router.py, get_database_target_url: filter
nodes with recent heartbeat, HEALTHY status, dispatched_tasks = 0 and
current_tasks = 0; when the conversation metadata carries a truthy
assigned_node_url that is in the healthy map, re-read the slot binding
node_slots[str(slot_id)] (falling back to assigned_node_url) and select
it when it is in the healthy map and idle; otherwise pick a random
active node (index oracle `pick`) and write it back into node_slots.
The active-node filter (recent heartbeat, HEALTHY, idle) is split out
as routerActiveNodes. -/
def routerActiveNodes (nodes : List Node) (now : Int) : List Node :=
  nodes.filter (fun n =>
    now - 30 < n.last_heartbeat && n.status == "HEALTHY" &&
    n.dispatched_tasks == 0 && n.current_tasks == 0)

def get_database_target_url (nodes : List Node) (convs : List Conversation) (now : Int)
    (conversation_id : Option String) (slot_id : Nat) (pick : Nat) : RouteResult :=
  let active_nodes := routerActiveNodes nodes now
  if active_nodes.isEmpty then ⟨none, false, convs⟩
  else
    let inHealthy := fun (u : String) => active_nodes.any (fun n => n.node_url == u)
    let conv? : Option Conversation :=
      match conversation_id with
      | some cid => if cid ≠ "" then convs.find? (fun c => c.conversation_id == cid) else none
      | none => none
    let meta? := conv?.bind Conversation.session_metadata
    let sticky : Option String × Option String :=
      match meta? with
      | none => (none, none)
      | some meta =>
        match meta.assigned_node_url with
        | none => (none, none)
        | some l0 =>
          if l0 ≠ "" && inHealthy l0 then
            let slot_url := meta.node_slots.lookup (toString slot_id)
            let last1 : Option String :=
              match slot_url with
              | some u => if u ≠ "" then some u else meta.assigned_node_url
              | none => meta.assigned_node_url
            match last1 with
            | some u =>
              if u ≠ "" && inHealthy u then
                match active_nodes.find? (fun n => n.node_url == u) with
                | some candidate =>
                  if candidate.dispatched_tasks == 0 && candidate.current_tasks == 0 then
                    (some u, last1)
                  else (none, last1)
                | none => (none, last1)
              else (none, last1)
            | none => (none, last1)
          else (none, some l0)
    match sticky.1 with
    | some target_url =>
      ⟨some (target_url ++ "/v1/chat/completions"), decide (sticky.2 ≠ some target_url), convs⟩
    | none =>
      let chosen_node := active_nodes.getD (pick % active_nodes.length) defaultNode
      let target_url := chosen_node.node_url
      let convs2 :=
        match conv? with
        | some conv =>
          let meta0 := match conv.session_metadata with | some m => m | none => ({} : SessionMeta)
          let meta2 := { meta0 with node_slots := setKey (toString slot_id) target_url meta0.node_slots }
          updateFirst (fun c => c.conversation_id == conv.conversation_id)
            (fun c => { c with session_metadata := some meta2 }) convs
        | none => convs
      ⟨some (target_url ++ "/v1/chat/completions"), decide (sticky.2 ≠ some target_url), convs2⟩

/-- services/workers/core/node_manager.py, atomic_claim_node: CAS
UPDATE nodes SET dispatched_tasks=1 WHERE node_url=? AND
dispatched_tasks=0, success iff exactly one row was affected. -/
def atomic_claim_node (nodes : List Node) (full_api_url : String) : Bool × List Node :=
  let base_url := toBaseUrl full_api_url
  let affected := (nodes.filter (fun n => n.node_url == base_url && n.dispatched_tasks == 0)).length
  let nodes2 := nodes.map (fun n =>
    if n.node_url == base_url && n.dispatched_tasks == 0 then { n with dispatched_tasks := 1 }
    else n)
  (affected == 1, nodes2)

/-- Result of acquire_node_with_retry: (target_url, is_node_changed,
target_base_url) — all none/false on exhaustion — plus the updated
node and conversation tables. -/
structure AcquireResult where
  target_url : Option String
  is_node_changed : Bool
  target_base_url : Option String
  nodes : List Node
  convs : List Conversation
deriving DecidableEq, Repr

/-- services/workers/core/node_manager.py, acquire_node_with_retry loop
body: query the router; when no candidate, give up immediately on the
first attempt and otherwise retry; on a candidate, CAS-claim it and
retry with backoff on CAS failure. -/
def acquireLoop (now : Int) (conversation_id : Option String) (slot_id : Nat)
    (pick : Nat → Nat) (attempt : Nat) :
    Nat → List Node → List Conversation → AcquireResult
  | 0, nodes, convs => ⟨none, false, none, nodes, convs⟩
  | remaining + 1, nodes, convs =>
    let route := get_database_target_url nodes convs now conversation_id slot_id (pick attempt)
    match route.url with
    | none =>
      if attempt == 0 then ⟨none, false, none, nodes, route.convs⟩
      else acquireLoop now conversation_id slot_id pick (attempt + 1) remaining nodes route.convs
    | some candidate_url =>
      let claim := atomic_claim_node nodes candidate_url
      if claim.1 then
        ⟨some candidate_url, route.changed,
          some (pyReplace candidate_url "/v1/chat/completions" ""), claim.2, route.convs⟩
      else
        acquireLoop now conversation_id slot_id pick (attempt + 1) remaining claim.2 route.convs

def acquire_node_with_retry (nodes : List Node) (convs : List Conversation) (now : Int)
    (conversation_id : Option String) (slot_id : Nat := 0) (pick : Nat → Nat)
    (max_retries : Nat := 3) : AcquireResult :=
  acquireLoop now conversation_id slot_id pick 0 max_retries nodes convs

/-- services/workers/core/node_manager.py, release_node_safe: release
the node (dispatched_tasks − 1) when a URL was recorded. -/
def release_node_safe (nodes : List Node) (node_url : Option String) : List Node :=
  match node_url with
  | some u => if u ≠ "" then update_node_load nodes u (-1) else nodes
  | none => nodes

/-- Observable state of run_chat_task after the claim and node
acquisition steps (runner.py lines 44–67). -/
structure RunnerPhase where
  tasks : List Task
  nodes : List Node
  convs : List Conversation
  acked : Bool
  returned_early : Bool
  target_url : Option String
  is_node_changed : Bool
deriving DecidableEq, Repr

/-- services/workers/core/runner.py, run_chat_task steps 2–3: when
check_idempotency is set, claim the task and — when the claim reports
False — ack the message and return; then call acquire_node_with_retry
with only the conversation_id (the payload target_node_url is not
passed), and on exhaustion mark the task FAILED, ack and return. -/
def run_chat_task_through_acquire (dbUp : Bool) (tasks : List Task) (nodes : List Node)
    (convs : List Conversation) (now : Int) (task_data : TaskData)
    (check_idempotency : Bool) (pick : Nat → Nat) : RunnerPhase :=
  let task_id := task_data.task_id
  let conversation_id := task_data.conversation_id
  if check_idempotency && !(claim_task dbUp tasks task_id).1 then
    ⟨(claim_task dbUp tasks task_id).2, nodes, convs, true, true, none, false⟩
  else
    let tasks1 := if check_idempotency then (claim_task dbUp tasks task_id).2 else tasks
    let acq := acquire_node_with_retry nodes convs now conversation_id 0 pick 3
    match acq.target_url with
    | none =>
      let tasks2 := mark_task_failed tasks1 task_id "系统繁忙：无可用节点或资源竞争超时"
      ⟨tasks2, acq.nodes, acq.convs, true, true, none, false⟩
    | some u => ⟨tasks1, acq.nodes, acq.convs, false, false, some u, acq.is_node_changed⟩

/-- services/workers/core/context_loader.py: the history query — tasks
of the conversation with status SUCCESS and non-null response_text,
ordered by created_at descending, limited, then reversed to ascending. -/
def fetchHistory (tasks : List Task) (conversation_id : String) (limit : Nat) : List Task :=
  ((sortByKey (fun a b => b.created_at ≤ a.created_at)
      (tasks.filter (fun t =>
        t.conversation_id == some conversation_id &&
        t.status == TaskStatus.SUCCESS &&
        t.response_text.isSome))).take limit).reverse

/-- services/workers/core/context_loader.py,
build_conversation_context: with a falsy conversation_id return only
the current prompt; otherwise emit, per history task, a user entry when
the prompt is truthy and an assistant entry when the response is
truthy, then append the current prompt. -/
def build_conversation_context (tasks : List Task) (conversation_id : Option String)
    (current_prompt : String) (limit : Nat := 10) : List Msg :=
  let justCurrent : List Msg := [⟨"user", current_prompt⟩]
  match conversation_id with
  | none => justCurrent
  | some cid =>
    if cid == "" then justCurrent
    else
      let history_tasks := fetchHistory tasks cid limit
      (history_tasks.flatMap (fun t =>
        (if t.prompt ≠ "" then [Msg.mk "user" t.prompt] else []) ++
        (match t.response_text with
         | some r => if r ≠ "" then [Msg.mk "assistant" r] else []
         | none => []))) ++ justCurrent

/-- Checker for the context invariant: every assistant entry is
immediately preceded by a user entry.  `okFrom prev l` scans `l`
remembering the previous entry. -/
def okFrom : Option Msg → List Msg → Bool
  | _, [] => true
  | prev, m :: rest =>
    (if m.role == "assistant" then
       match prev with
       | some p => p.role == "user"
       | none => false
     else true) && okFrom (some m) rest

def pairedOk (l : List Msg) : Bool := okFrom none l

/-! ## Claim C3: stream routing -/

/-- C3, counterexample: for the model name "llama" — which matches none
of the routing substrings — dispatch_to_stream falls back to
"qwen_stream", not to "gemini_stream" as claimed. -/
theorem C3_counterexample :
    dispatch_to_stream { task_id := "t0", model := "llama" } none = "qwen_stream"
    ∧ containsSub "gemini" (pyLower "llama") = false
    ∧ containsSub "stable" (pyLower "llama") = false
    ∧ containsSub "sd" (pyLower "llama") = false
    ∧ containsSub "qwen" (pyLower "llama") = false
    ∧ containsSub "千问" (pyLower "llama") = false
    ∧ containsSub "deepseek" (pyLower "llama") = false
    ∧ "qwen_stream" ≠ "gemini_stream" := by decide

/-- C3, amended: with no forced key, dispatch_to_stream routes by
substring match on the lower-cased model name with priority
qwen/千问 > deepseek > gemini > sd/stable, and for a model name
matching none of these substrings it falls back to "qwen_stream". -/
theorem C3_amended (td : TaskData) :
    ((containsSub "qwen" (pyLower td.model) || containsSub "千问" (pyLower td.model)) = true →
      dispatch_to_stream td none = "qwen_stream")
    ∧ (containsSub "qwen" (pyLower td.model) = false →
       containsSub "千问" (pyLower td.model) = false →
       containsSub "deepseek" (pyLower td.model) = true →
      dispatch_to_stream td none = "deepseek_stream")
    ∧ (containsSub "qwen" (pyLower td.model) = false →
       containsSub "千问" (pyLower td.model) = false →
       containsSub "deepseek" (pyLower td.model) = false →
       containsSub "gemini" (pyLower td.model) = true →
      dispatch_to_stream td none = "gemini_stream")
    ∧ (containsSub "qwen" (pyLower td.model) = false →
       containsSub "千问" (pyLower td.model) = false →
       containsSub "deepseek" (pyLower td.model) = false →
       containsSub "gemini" (pyLower td.model) = false →
       (containsSub "sd" (pyLower td.model) || containsSub "stable" (pyLower td.model)) = true →
      dispatch_to_stream td none = "sd_stream")
    ∧ (containsSub "qwen" (pyLower td.model) = false →
       containsSub "千问" (pyLower td.model) = false →
       containsSub "deepseek" (pyLower td.model) = false →
       containsSub "gemini" (pyLower td.model) = false →
       containsSub "sd" (pyLower td.model) = false →
       containsSub "stable" (pyLower td.model) = false →
      dispatch_to_stream td none = "qwen_stream") := by
  refine ⟨?_, ?_, ?_, ?_, ?_⟩ <;> intros <;> simp_all [dispatch_to_stream]

/-- C3, witness for the amended theorem at a concrete model name. -/
theorem C3_amended_witness :
    containsSub "deepseek" (pyLower "DeepSeek-R1") = true
    ∧ dispatch_to_stream { task_id := "t0", model := "DeepSeek-R1" } none = "deepseek_stream" :=
  ⟨by decide,
   (C3_amended { task_id := "t0", model := "DeepSeek-R1" }).2.1 (by decide) (by decide) (by decide)⟩

/-! ## Claim C6: dispatched_tasks bounds -/

/-- C6, counterexample: releasing a node whose dispatched_tasks is
already 0 drives the counter to −1 — the decrement in
update_node_load is not bounded below by 0, so the claimed invariant
fails for the sequence consisting of a single release. -/
theorem C6_counterexample :
    ({ node_url := "http://n" } : Node).dispatched_tasks = 0
    ∧ (update_node_load [{ node_url := "http://n" }] "http://n/v1/chat/completions" (-1)).map
        Node.dispatched_tasks = [-1]
    ∧ ¬ (0 : Int) ≤ -1 := by decide

/-- C6, amended: the CAS claim alone preserves dispatched_tasks within
set 0 or 1, and a release that is matched — applied when every node on
the released URL holds the reservation (dispatched_tasks = 1) — keeps
every node within 0 or 1; an unmatched release can drive the counter
negative since the decrement is unbounded. -/
theorem C6_amended (nodes : List Node) (url : String) :
    ((∀ n ∈ nodes, n.dispatched_tasks = 0 ∨ n.dispatched_tasks = 1) →
      ∀ m ∈ (atomic_claim_node nodes url).2, m.dispatched_tasks = 0 ∨ m.dispatched_tasks = 1)
    ∧ ((∀ n ∈ nodes, (n.dispatched_tasks = 0 ∨ n.dispatched_tasks = 1) ∧
          (n.node_url = toBaseUrl url → n.dispatched_tasks = 1)) →
      ∀ m ∈ update_node_load nodes url (-1),
        m.dispatched_tasks = 0 ∨ m.dispatched_tasks = 1) := by
  constructor
  · intro h m hm
    simp only [atomic_claim_node, List.mem_map] at hm
    obtain ⟨n, hn, rfl⟩ := hm
    by_cases hc : (n.node_url == toBaseUrl url && n.dispatched_tasks == 0) = true
    · simp [hc]
    · simp only [hc, if_false]
      exact h n hn
  · intro h m hm
    simp only [update_node_load, List.mem_map] at hm
    obtain ⟨n, hn, rfl⟩ := hm
    by_cases hc : (n.node_url == toBaseUrl url) = true
    · have := (h n hn).2 (by simpa [beq_iff_eq] using hc)
      simp [hc, this]
    · simp only [hc, if_false]
      exact (h n hn).1

/-- C6, witness for the amended theorem: a successful CAS claim on a
fresh node leaves the claimed node at dispatched_tasks = 1 — within
bounds. -/
theorem C6_amended_witness :
    ({ node_url := "http://n", dispatched_tasks := 1 } : Node) ∈
      (atomic_claim_node [{ node_url := "http://n" }] "http://n/v1/chat/completions").2
    ∧ (({ node_url := "http://n", dispatched_tasks := 1 } : Node).dispatched_tasks = 0 ∨
       ({ node_url := "http://n", dispatched_tasks := 1 } : Node).dispatched_tasks = 1) :=
  ⟨by decide,
   (C6_amended [{ node_url := "http://n" }] "http://n/v1/chat/completions").1
     (by decide) _ (by decide)⟩

/-! ## Claim C2: terminal-status immutability -/

/-- C2, counterexample: mark_task_failed on a task whose status is
already SUCCESS (terminal) overwrites the status with FAILED — the
UPDATE carries no status guard, so terminal states are not immutable. -/
theorem C2_counterexample :
    ({ task_id := "t3", status := TaskStatus.SUCCESS, response_text := some "ok" } : Task).status =
      TaskStatus.SUCCESS
    ∧ (mark_task_failed [{ task_id := "t3", status := TaskStatus.SUCCESS, response_text := some "ok" }]
        "t3" "boom").map Task.status = [TaskStatus.FAILED] := by decide

/-- C2, amended: only claim_task guards on the current status — it
leaves every non-PENDING (in particular terminal) task unchanged —
while mark_task_failed and finish_task_success overwrite the status
unconditionally (to FAILED resp. SUCCESS) whenever the task exists, so
terminal statuses are mutable through them. -/
theorem C2_amended :
    (∀ (dbUp : Bool) (tasks : List Task) (tid : String) (t : Task), t ∈ tasks →
      t.status ≠ TaskStatus.PENDING → t ∈ (claim_task dbUp tasks tid).2)
    ∧ (∀ (t : Task) (tid msg : String), t.task_id = tid → tid ≠ "" → tid ≠ "UNKNOWN" →
      mark_task_failed [t] tid msg =
        [{ t with status := TaskStatus.FAILED, error_msg := some msg }])
    ∧ (∀ (t : Task) (convs : List Conversation) (now : Int) (tid text : String) (cost : Int),
      t.task_id = tid →
      finish_task_success [t] convs now tid text cost none =
        (true,
         [{ t with response_text := some text, status := TaskStatus.SUCCESS, cost_time := some cost, updated_at := now }],
         convs)) := by
  refine ⟨?_, ?_, ?_⟩
  · intro dbUp tasks tid t ht hst
    by_cases hdb : dbUp
    · have hf : (if (t.task_id == tid && t.status == TaskStatus.PENDING) = true then
          { t with status := TaskStatus.PROCESSING } else t) = t := by
        have : (t.status == TaskStatus.PENDING) = false := by
          simpa [beq_iff_eq] using hst
        simp [this]
      simp only [claim_task, hdb, Bool.not_true, if_neg, Bool.false_eq_true,
        not_false_eq_true, if_false]
      exact List.mem_map.mpr ⟨t, ht, hf⟩
    · simp only [Bool.not_eq_true] at hdb
      simp [claim_task, hdb, ht]
  · intro t tid msg hid h1 h2
    simp [mark_task_failed, h1, h2, updateFirst, hid]
  · intro t convs now tid text cost hid
    simp [finish_task_success, updateFirst, hid]

/-- C2, witness for the amended theorem: a SUCCESS task survives
claim_task untouched. -/
theorem C2_amended_witness :
    ({ task_id := "t3", status := TaskStatus.SUCCESS } : Task) ∈
      (claim_task true [{ task_id := "t3", status := TaskStatus.SUCCESS }] "t3").2 :=
  (C2_amended).1 true [{ task_id := "t3", status := TaskStatus.SUCCESS }] "t3"
    { task_id := "t3", status := TaskStatus.SUCCESS } (by decide) (by decide)

/-! ## Claim C7: ack discipline on an undecidable claim -/

/-- C7, counterexample: with the database unreachable at claim time the
claim_task call reports False, and run_chat_task acks the message and
returns — while the task row is still PENDING, neither terminal nor
dead-lettered. -/
theorem C7_counterexample :
    (run_chat_task_through_acquire false [{ task_id := "t1" }] [] [] 0
        { task_id := "t1" } true (fun _ => 0)).acked = true
    ∧ ((run_chat_task_through_acquire false [{ task_id := "t1" }] [] [] 0
        { task_id := "t1" } true (fun _ => 0)).tasks.map Task.status) = [TaskStatus.PENDING] := by
  decide

/-- C7, amended: when the database is unreachable at claim time, the
claim exception is swallowed into a False claim result and the worker
acks the message immediately, leaving the task table untouched (the
task stays PENDING); the message does not stay in the pending-entries
list. -/
theorem C7_amended (tasks : List Task) (nodes : List Node) (convs : List Conversation)
    (now : Int) (td : TaskData) (pick : Nat → Nat) :
    (run_chat_task_through_acquire false tasks nodes convs now td true pick).acked = true
    ∧ (run_chat_task_through_acquire false tasks nodes convs now td true pick).tasks = tasks
    ∧ (run_chat_task_through_acquire false tasks nodes convs now td true pick).target_url = none := by
  simp [run_chat_task_through_acquire, claim_task]

/-! ## Claim C1: pre-bound target node -/

/-- C1, counterexample: the payload pre-binds target_node_url
"http://a", node a is healthy (in the router active set), yet the
worker lifecycle selects the router candidate "http://b" — the
pre-bound node is not preferred (run_chat_task never reads
target_node_url). -/
theorem C1_counterexample :
    (run_chat_task_through_acquire true [{ task_id := "t1" }]
        [{ node_url := "http://a", last_heartbeat := 95 }, { node_url := "http://b", last_heartbeat := 95 }]
        [] 100 { task_id := "t1", target_node_url := some "http://a" } true (fun _ => 1)).target_url
      = some "http://b/v1/chat/completions"
    ∧ (routerActiveNodes
        [{ node_url := "http://a", last_heartbeat := 95 }, { node_url := "http://b", last_heartbeat := 95 }]
        100).any (fun n => n.node_url == "http://a") = true
    ∧ some "http://b/v1/chat/completions" ≠ some ("http://a" ++ "/v1/chat/completions") := by
  decide

/-- C1, amended: run_chat_task ignores the payload target_node_url
entirely — node selection depends only on the task_id and
conversation_id fields of the payload, and always takes the Router
plus CAS choice. -/
theorem C1_amended (dbUp : Bool) (tasks : List Task) (nodes : List Node)
    (convs : List Conversation) (now : Int) (td td2 : TaskData) (ci : Bool) (pick : Nat → Nat)
    (hid : td.task_id = td2.task_id) (hconv : td.conversation_id = td2.conversation_id) :
    run_chat_task_through_acquire dbUp tasks nodes convs now td ci pick =
      run_chat_task_through_acquire dbUp tasks nodes convs now td2 ci pick := by
  simp only [run_chat_task_through_acquire, hid, hconv]

/-- C1, witness: the same world with the pre-bound node present or
absent yields the identical runner outcome. -/
theorem C1_amended_witness :
    run_chat_task_through_acquire true [{ task_id := "t1" }]
        [{ node_url := "http://a", last_heartbeat := 95 }] [] 100
        { task_id := "t1", target_node_url := some "http://a" } true (fun _ => 0) =
      run_chat_task_through_acquire true [{ task_id := "t1" }]
        [{ node_url := "http://a", last_heartbeat := 95 }] [] 100
        { task_id := "t1", target_node_url := none } true (fun _ => 0) :=
  C1_amended true [{ task_id := "t1" }] [{ node_url := "http://a", last_heartbeat := 95 }] [] 100
    { task_id := "t1", target_node_url := some "http://a" }
    { task_id := "t1", target_node_url := none } true (fun _ => 0) rfl rfl

/-! ## Claim C8: conversation-context reconstruction -/

/-- C8, counterexample: a SUCCESS history task with an empty prompt and
a non-empty response yields an assistant entry with no preceding user
entry — the user entry is dropped by the truthiness guard on the
prompt, so the alternation invariant fails. -/
theorem C8_counterexample :
    build_conversation_context
        [{ task_id := "t2", conversation_id := some "c9", prompt := "",
           status := TaskStatus.SUCCESS, response_text := some "hi" }]
        (some "c9") "q" 10 = [⟨"assistant", "hi"⟩, ⟨"user", "q"⟩]
    ∧ pairedOk (build_conversation_context
        [{ task_id := "t2", conversation_id := some "c9", prompt := "",
           status := TaskStatus.SUCCESS, response_text := some "hi" }]
        (some "c9") "q" 10) = false := by decide

theorem guardedChunks_eq (hs : List Task)
    (h : ∀ t ∈ hs, t.prompt ≠ "" ∧ t.response_text.getD "" ≠ "") :
    hs.flatMap (fun t =>
      (if t.prompt ≠ "" then [Msg.mk "user" t.prompt] else []) ++
      (match t.response_text with
       | some r => if r ≠ "" then [Msg.mk "assistant" r] else []
       | none => [])) =
    hs.flatMap (fun t => [Msg.mk "user" t.prompt, Msg.mk "assistant" (t.response_text.getD "")]) := by
  induction hs with
  | nil => rfl
  | cons t ts ih =>
    obtain ⟨hp, hr⟩ := h t (List.mem_cons_self t ts)
    have hrest := ih (fun x hx => h x (List.mem_cons_of_mem _ hx))
    cases hre : t.response_text with
    | none => rw [hre] at hr; simp at hr
    | some r =>
      rw [hre] at hr
      simp only [Option.getD_some] at hr
      rw [List.flatMap_cons, List.flatMap_cons, hrest]
      simp [hp, hre, hr]

theorem okFrom_pairs (hs : List Task) (p : String) : ∀ prev,
    okFrom prev
      (hs.flatMap (fun t => [Msg.mk "user" t.prompt, Msg.mk "assistant" (t.response_text.getD "")])
        ++ [Msg.mk "user" p]) = true := by
  induction hs with
  | nil => intro prev; simp [okFrom]
  | cons t ts ih =>
    intro prev
    simp only [List.flatMap_cons, List.cons_append, List.append_assoc]
    simp only [okFrom]
    simpa using ih (some (Msg.mk "assistant" (t.response_text.getD "")))

/-- C8, amended: the context loader emits a user entry only when the
task prompt is non-empty and an assistant entry only when the response
text is non-empty; restricted to histories in which every fetched task
has a non-empty prompt and a non-empty response, the result is the
alternating user/assistant pairs in ascending order followed by the
current prompt, and every assistant entry is immediately preceded by a
user entry with that task prompt. -/
theorem C8_amended (tasks : List Task) (cid p : String) (limit : Nat)
    (hcid : ¬ cid = "")
    (h : ∀ t ∈ fetchHistory tasks cid limit, t.prompt ≠ "" ∧ t.response_text.getD "" ≠ "") :
    build_conversation_context tasks (some cid) p limit =
      (fetchHistory tasks cid limit).flatMap
        (fun t => [Msg.mk "user" t.prompt, Msg.mk "assistant" (t.response_text.getD "")])
      ++ [Msg.mk "user" p]
    ∧ pairedOk (build_conversation_context tasks (some cid) p limit) = true := by
  have hb : build_conversation_context tasks (some cid) p limit =
      (fetchHistory tasks cid limit).flatMap (fun t =>
        (if t.prompt ≠ "" then [Msg.mk "user" t.prompt] else []) ++
        (match t.response_text with
         | some r => if r ≠ "" then [Msg.mk "assistant" r] else []
         | none => [])) ++ [Msg.mk "user" p] := by
    simp [build_conversation_context, hcid]
  rw [hb, guardedChunks_eq _ h]
  exact ⟨rfl, okFrom_pairs _ _ none⟩

/-- C8, witness for the amended theorem on a one-task history. -/
theorem C8_amended_witness :
    build_conversation_context
        [{ task_id := "t5", conversation_id := some "c8", prompt := "hello",
           status := TaskStatus.SUCCESS, response_text := some "world" }]
        (some "c8") "next" 10 =
      [⟨"user", "hello"⟩, ⟨"assistant", "world"⟩, ⟨"user", "next"⟩]
    ∧ pairedOk (build_conversation_context
        [{ task_id := "t5", conversation_id := some "c8", prompt := "hello",
           status := TaskStatus.SUCCESS, response_text := some "world" }]
        (some "c8") "next" 10) = true := by
  have h := C8_amended
    [{ task_id := "t5", conversation_id := some "c8", prompt := "hello",
       status := TaskStatus.SUCCESS, response_text := some "world" }]
    "c8" "next" 10 (by decide) (by decide)
  exact ⟨by rw [h.1]; decide, h.2⟩

/-! ## Claim C9: refusal audit -/

theorem find?_updateFirst (p : α → Bool) (f : α → α) (l : List α) (t : α)
    (hfind : l.find? p = some t) (hp : p (f t) = true) :
    (updateFirst p f l).find? p = some (f t) := by
  induction l with
  | nil => simp at hfind
  | cons x xs ih =>
    by_cases hx : p x = true
    · rw [List.find?_cons_of_pos _ hx] at hfind
      obtain rfl : x = t := by injection hfind
      simp [updateFirst, hx, List.find?_cons_of_pos _ hp]
    · have hx2 : ¬ p x = true := hx
      rw [List.find?_cons_of_neg _ hx2] at hfind
      simp only [updateFirst, if_neg hx2]
      rw [List.find?_cons_of_neg _ hx2]
      exact ih hfind

/-- C9, confirmed: for a task present in the table (with a usable id)
and a non-empty refusal keyword list, process_ai_result marks the task
FAILED with error message "生成失败: " prepended to the text and
returns false exactly when some keyword is a substring of the text;
otherwise it commits SUCCESS with the text as response_text and
returns true. -/
theorem C9_refusal_audit (tasks : List Task) (convs : List Conversation) (now : Int)
    (tid text : String) (cost : Int) (cid : Option String) (kws : List String) (t : Task)
    (h0 : tid ≠ "") (h1 : tid ≠ "UNKNOWN")
    (hfind : tasks.find? (fun x => x.task_id == tid) = some t)
    (hk : kws ≠ []) :
    (kws.any (fun kw => containsSub kw text) = true →
      (process_ai_result tasks convs now tid text cost cid kws).1 = false
      ∧ ((process_ai_result tasks convs now tid text cost cid kws).2.1.find?
          (fun x => x.task_id == tid)) =
        some { t with status := TaskStatus.FAILED, error_msg := some ("生成失败: " ++ text) })
    ∧ (kws.any (fun kw => containsSub kw text) = false →
      (process_ai_result tasks convs now tid text cost cid kws).1 = true
      ∧ ((process_ai_result tasks convs now tid text cost cid kws).2.1.find?
          (fun x => x.task_id == tid)) =
        some { t with response_text := some text, status := TaskStatus.SUCCESS, cost_time := some cost, updated_at := now }) := by
  have hke : kws.isEmpty = false := by
    cases kws with
    | nil => simp at hk
    | cons a as => rfl
  have hpt := List.find?_some hfind
  constructor
  · intro hany
    have hproc : process_ai_result tasks convs now tid text cost cid kws =
        (false, mark_task_failed tasks tid ("生成失败: " ++ text), convs) := by
      simp [process_ai_result, hke, hany]
    have hmark : mark_task_failed tasks tid ("生成失败: " ++ text) =
        updateFirst (fun x => x.task_id == tid)
          (fun x => { x with status := TaskStatus.FAILED,
                             error_msg := some ("生成失败: " ++ text) }) tasks := by
      simp [mark_task_failed, h0, h1]
    rw [hproc]
    exact ⟨rfl, by rw [hmark]; exact find?_updateFirst _ _ _ _ hfind (by simpa using hpt)⟩
  · intro hany
    have hproc : process_ai_result tasks convs now tid text cost cid kws =
        finish_task_success tasks convs now tid text cost cid := by
      simp [process_ai_result, hke, hany]
    rw [hproc]
    simp only [finish_task_success, hfind]
    exact ⟨trivial, find?_updateFirst _ _ _ _ hfind (by simpa using hpt)⟩

/-- C9, witness: a response containing the Gemini refusal keyword is
marked failed with the prefixed error message. -/
theorem C9_refusal_audit_witness :
    (process_ai_result [{ task_id := "t6", status := TaskStatus.PROCESSING }] [] 50 "t6"
        "抱歉，无法为您创建任何图片。" 2 none ["无法为您创建任何图片"]).1 = false
    ∧ ((process_ai_result [{ task_id := "t6", status := TaskStatus.PROCESSING }] [] 50 "t6"
        "抱歉，无法为您创建任何图片。" 2 none ["无法为您创建任何图片"]).2.1.find?
          (fun x => x.task_id == "t6")) =
        some { task_id := "t6", status := TaskStatus.FAILED,
               error_msg := some ("生成失败: " ++ "抱歉，无法为您创建任何图片。") } :=
  (C9_refusal_audit [{ task_id := "t6", status := TaskStatus.PROCESSING }] [] 50 "t6"
      "抱歉，无法为您创建任何图片。" 2 none ["无法为您创建任何图片"]
      { task_id := "t6", status := TaskStatus.PROCESSING }
      (by decide) (by decide) (by decide) (by decide)).1 (by decide)

/-! ## Claim C5: sticky-session lookup -/

/-- C5, counterexample: the conversation metadata binds slot 0 to node
"http://a", which is in the healthy set, but carries no
assigned_node_url key — the sticky branch is gated on
assigned_node_url, so the router ignores the slot binding and (for
this draw) selects "http://b" instead. -/
theorem C5_counterexample :
    (get_database_target_url
        [{ node_url := "http://a", last_heartbeat := 95 }, { node_url := "http://b", last_heartbeat := 95 }]
        [{ conversation_id := "c1", session_metadata := some { node_slots := [("0", "http://a")] } }]
        100 (some "c1") 0 1).url = some "http://b/v1/chat/completions"
    ∧ (routerActiveNodes
        [{ node_url := "http://a", last_heartbeat := 95 }, { node_url := "http://b", last_heartbeat := 95 }]
        100).any (fun n => n.node_url == "http://a") = true
    ∧ ({ node_slots := [("0", "http://a")] } : SessionMeta).node_slots.lookup (toString 0) =
        some "http://a"
    ∧ some "http://b/v1/chat/completions" ≠ some ("http://a" ++ "/v1/chat/completions") := by
  decide

/-- C5, amended: the sticky lookup applies only when the metadata also
carries an assigned_node_url that is itself in the healthy set; under
that gate, a slot binding node_slots[str(slot_id)] pointing into the
healthy set is selected for the slot, regardless of the random draw
and of any other metadata keys. -/
theorem C5_amended (nodes : List Node) (convs : List Conversation) (now : Int)
    (cid : String) (slot : Nat) (pick : Nat) (conv : Conversation) (meta : SessionMeta)
    (a0 u : String)
    (hcid : ¬ cid = "")
    (hfind : convs.find? (fun c => c.conversation_id == cid) = some conv)
    (hmeta : conv.session_metadata = some meta)
    (ha : meta.assigned_node_url = some a0) (ha0 : ¬ a0 = "")
    (hah : (routerActiveNodes nodes now).any (fun n => n.node_url == a0) = true)
    (hslot : meta.node_slots.lookup (toString slot) = some u) (hu : ¬ u = "")
    (huh : (routerActiveNodes nodes now).any (fun n => n.node_url == u) = true) :
    (get_database_target_url nodes convs now (some cid) slot pick).url =
      some (u ++ "/v1/chat/completions") := by
  obtain ⟨c, hcmem, hcp⟩ := List.any_eq_true.mp huh
  have hcsome : ((routerActiveNodes nodes now).find? (fun n => n.node_url == u)).isSome := by
    rw [List.find?_isSome]
    exact ⟨c, hcmem, hcp⟩
  obtain ⟨c0, hcfind⟩ := Option.isSome_iff_exists.mp hcsome
  have hc0mem := List.mem_of_find?_eq_some hcfind
  have hall : c0 ∈ nodes ∧
      ((now - 30 < c0.last_heartbeat ∧ c0.status = "HEALTHY") ∧ c0.dispatched_tasks = 0) ∧
      c0.current_tasks = 0 := by
    simpa [routerActiveNodes] using hc0mem
  have hc0d : c0.dispatched_tasks = 0 := hall.2.1.2
  have hc0c : c0.current_tasks = 0 := hall.2.2
  have hne : (routerActiveNodes nodes now).isEmpty = false := by
    cases hl : routerActiveNodes nodes now with
    | nil => rw [hl] at hcmem; simp at hcmem
    | cons a as => rfl
  simp [get_database_target_url, hne, hcid, hfind, hmeta, ha, ha0, hah, hslot, hu, huh,
    hcfind, hc0d, hc0c]

/-- C5, witness for the amended theorem: with assigned_node_url present
and healthy, the slot binding is honoured. -/
theorem C5_amended_witness :
    (get_database_target_url
        [{ node_url := "http://a", last_heartbeat := 95 }, { node_url := "http://b", last_heartbeat := 95 }]
        [{ conversation_id := "c1",
           session_metadata := some { assigned_node_url := some "http://b",
                                      node_slots := [("0", "http://a")],
                                      extra := [("userTag", "x")] } }]
        100 (some "c1") 0 1).url = some ("http://a" ++ "/v1/chat/completions") :=
  C5_amended
    [{ node_url := "http://a", last_heartbeat := 95 }, { node_url := "http://b", last_heartbeat := 95 }]
    [{ conversation_id := "c1",
       session_metadata := some { assigned_node_url := some "http://b",
                                  node_slots := [("0", "http://a")],
                                  extra := [("userTag", "x")] } }]
    100 "c1" 0 1
    { conversation_id := "c1",
      session_metadata := some { assigned_node_url := some "http://b",
                                 node_slots := [("0", "http://a")],
                                 extra := [("userTag", "x")] } }
    { assigned_node_url := some "http://b", node_slots := [("0", "http://a")],
      extra := [("userTag", "x")] }
    "http://b" "http://a"
    (by decide) (by decide) (by decide) (by decide) (by decide) (by decide) (by decide)
    (by decide) (by decide)

/-! ## Claim C4: dispatcher node pre-selection -/

theorem sampleIdx_length (idx : Nat → Nat) (k : Nat) : ∀ (step : Nat) (l : List Node),
    (sampleIdx idx step k l).length = min k l.length := by
  induction k with
  | zero => intro step l; cases l <;> simp [sampleIdx]
  | succ k ih =>
    intro step l
    cases l with
    | nil => simp [sampleIdx]
    | cons x xs =>
      simp only [sampleIdx, List.length_cons]
      rw [ih]
      have hi : idx step % (xs.length + 1) < (x :: xs).length := by
        simp only [List.length_cons]
        exact Nat.mod_lt _ (Nat.succ_pos _)
      rw [List.length_eraseIdx_of_lt hi]
      simp only [List.length_cons]
      omega

theorem sampleIdx_mem (idx : Nat → Nat) (k : Nat) : ∀ (step : Nat) (l : List Node) (y : Node),
    y ∈ sampleIdx idx step k l → y ∈ l := by
  induction k with
  | zero => intro step l y h; cases l <;> simp [sampleIdx] at h
  | succ k ih =>
    intro step l y h
    cases l with
    | nil => simp [sampleIdx] at h
    | cons x xs =>
      simp only [sampleIdx, List.mem_cons] at h
      rcases h with h | h
      · have hi : idx step % (x :: xs).length < (x :: xs).length := Nat.mod_lt _ (by simp)
        rw [h, List.getD_eq_getElem?_getD, List.getElem?_eq_getElem hi]
        simp
      · exact List.Sublist.mem (ih _ _ _ h) (List.eraseIdx_sublist _ _)

theorem mem_insertSorted (le : Node → Node → Bool) (x y : Node) (l : List Node) :
    y ∈ insertSorted le x l ↔ y = x ∨ y ∈ l := by
  induction l with
  | nil => simp [insertSorted]
  | cons z zs ih =>
    simp only [insertSorted]
    by_cases h : le x z = true
    · rw [if_pos h]
      simp only [List.mem_cons]
    · rw [if_neg h]
      simp only [List.mem_cons, ih]
      tauto

theorem mem_sortByKey (le : Node → Node → Bool) (y : Node) (l : List Node) :
    y ∈ sortByKey le l ↔ y ∈ l := by
  induction l with
  | nil => simp [sortByKey]
  | cons x xs ih => simp [sortByKey, mem_insertSorted, ih]

theorem mem_availableNodes (db : List Node) (n : Node) (h : n ∈ availableNodes db) :
    n ∈ db ∧ n.status = "HEALTHY" := by
  have h2 := List.take_subset 10 _ h
  rw [mem_sortByKey] at h2
  have h3 := List.mem_filter.mp h2
  exact ⟨h3.1, by simpa [beq_iff_eq] using h3.2⟩

theorem selectTargetNodes_length (db : List Node) (c : Nat) (b : Bool) (idx : Nat → Nat) :
    (selectTargetNodes db c b idx).length = c := by
  unfold selectTargetNodes
  by_cases hb : (b && decide (0 < c)) = true
  · simp only [hb, if_pos]
    by_cases he : (availableNodes db).isEmpty = true
    · simp [he]
    · simp only [Bool.not_eq_true] at he
      simp [he]
  · simp [hb]

/-- C4, counterexample: a HEALTHY node whose last heartbeat is 100000
seconds stale is still pre-selected (the dispatcher never consults
last_heartbeat), and with one candidate and concurrency 2 the second
slot is left null instead of being sampled with replacement. -/
theorem C4_counterexample :
    selectTargetNodes [{ node_url := "http://n1", last_heartbeat := 0 }] 1 true (fun _ => 0) =
      [some "http://n1"]
    ∧ aliveAt 100000 { node_url := "http://n1", last_heartbeat := 0 } = false
    ∧ selectTargetNodes [{ node_url := "http://n1", last_heartbeat := 0 }] 2 true (fun _ => 0) =
      [some "http://n1", none] := by decide

/-- C4, amended: pre-selection considers only status = HEALTHY — never
last_heartbeat — ordered by current_tasks ascending and capped at ten;
it always samples min(available, concurrency) distinct candidates
without replacement (the with-replacement branch is unreachable),
leaving the remaining slots null when candidates run short; the result
has length concurrency, and it is all-null exactly when no family is
given or no candidate exists. -/
theorem C4_amended (db : List Node) (c : Nat) (b : Bool) (idx : Nat → Nat) :
    (selectTargetNodes db c b idx).length = c
    ∧ (∀ u : String, some u ∈ selectTargetNodes db c b idx →
        ∃ n, n ∈ db ∧ n.status = "HEALTHY" ∧ n.node_url = u)
    ∧ (b = false → selectTargetNodes db c b idx = List.replicate c none)
    ∧ (availableNodes db = [] → selectTargetNodes db c b idx = List.replicate c none)
    ∧ (b = true → ¬ availableNodes db = [] → (availableNodes db).length < c →
        none ∈ selectTargetNodes db c b idx)
    ∧ (b = true → ¬ availableNodes db = [] → 0 < c →
        ∃ u, (selectTargetNodes db c b idx)[0]? = some (some u)) := by
  refine ⟨selectTargetNodes_length db c b idx, ?_, ?_, ?_, ?_, ?_⟩
  · intro u hu
    by_cases hb : (b && decide (0 < c)) = true
    · simp only [selectTargetNodes, hb, if_pos] at hu
      by_cases he : (availableNodes db).isEmpty = true
      · simp [he] at hu
      · simp only [Bool.not_eq_true] at he
        have hcond : min (availableNodes db).length c ≤ (availableNodes db).length :=
          Nat.min_le_left _ _
        simp only [he, Bool.false_eq_true, if_false, hcond, if_pos, List.mem_map] at hu
        obtain ⟨i, _, hfi⟩ := hu
        obtain ⟨n, hget, hurl⟩ := Option.map_eq_some'.mp hfi
        have hn : n ∈ availableNodes db :=
          sampleIdx_mem idx _ _ _ _ (List.getElem?_mem hget)
        obtain ⟨hdb, hst⟩ := mem_availableNodes db n hn
        exact ⟨n, hdb, hst, hurl⟩
    · simp only [selectTargetNodes, hb, Bool.false_eq_true, if_false] at hu
      exact absurd (List.eq_of_mem_replicate hu) (by simp)
  · intro hb
    subst hb
    simp [selectTargetNodes]
  · intro hav
    by_cases hb : (b && decide (0 < c)) = true
    · simp [selectTargetNodes, hb, hav]
    · simp [selectTargetNodes, hb]
  · intro hb hne hlt
    have h0c : 0 < c := Nat.lt_of_le_of_lt (Nat.zero_le _) hlt
    have hbe : (b && decide (0 < c)) = true := by simp [hb, h0c]
    have hie : (availableNodes db).isEmpty = false := by
      cases hav : availableNodes db with
      | nil => exact absurd hav hne
      | cons a as => rfl
    have hcond : min (availableNodes db).length c ≤ (availableNodes db).length :=
      Nat.min_le_left _ _
    have hmin : min (availableNodes db).length c = (availableNodes db).length :=
      Nat.min_eq_left (Nat.le_of_lt hlt)
    have hslen : (sampleIdx idx 0 (min (availableNodes db).length c) (availableNodes db)).length =
        (availableNodes db).length := by
      rw [sampleIdx_length, hmin, Nat.min_self]
    simp only [selectTargetNodes, hbe, if_pos, hie, Bool.false_eq_true, if_false, hcond,
      List.mem_map]
    refine ⟨(availableNodes db).length, List.mem_range.mpr hlt, ?_⟩
    rw [List.getElem?_eq_none_iff.mpr (by rw [hslen])]
    rfl
  · intro hb hne h0c
    have hbe : (b && decide (0 < c)) = true := by simp [hb, h0c]
    have hie : (availableNodes db).isEmpty = false := by
      cases hav : availableNodes db with
      | nil => exact absurd hav hne
      | cons a as => rfl
    have hlp : 0 < (availableNodes db).length := by
      cases hav : availableNodes db with
      | nil => exact absurd hav hne
      | cons a as => simp
    have hcond : min (availableNodes db).length c ≤ (availableNodes db).length :=
      Nat.min_le_left _ _
    have hslen : 0 < (sampleIdx idx 0 (min (availableNodes db).length c) (availableNodes db)).length := by
      rw [sampleIdx_length]
      simp [Nat.lt_min, hlp, h0c]
    simp only [selectTargetNodes, hbe, if_pos, hie, Bool.false_eq_true, if_false, hcond,
      List.getElem?_map, List.getElem?_range h0c, Option.map_some']
    rw [List.getElem?_eq_getElem hslen]
    exact ⟨_, rfl⟩

/-- C4, witness for the amended theorem: one stale-but-HEALTHY
candidate and concurrency 2 leave a null slot. -/
theorem C4_amended_witness :
    none ∈ selectTargetNodes [{ node_url := "http://n1", last_heartbeat := 0 }] 2 true (fun _ => 0) :=
  (C4_amended [{ node_url := "http://n1", last_heartbeat := 0 }] 2 true (fun _ => 0)).2.2.2.2.1
    (by decide) (by decide) (by decide)

/-! ## Claim C10: gateway fan-out -/

theorem dispatch_single_model_name (batch cid prompt base mode : String) (files : List String)
    (turl : Option String) (suffix : String) (tstream : Option String) (tid : String)
    (mqErr : Option String) :
    (dispatch_single_task batch cid prompt base mode files turl suffix tstream tid mqErr).row.model_name =
      if suffix ≠ "" then base ++ " " ++ suffix else base := by
  cases mqErr <;> rfl

theorem dispatchSlots_names (batch cid prompt m mode : String) (files : List String)
    (isG : Bool) (mi : Nat) (mq : Nat → Nat → Option String) :
    ∀ (i : Nat) (us : List (Option String)),
      (dispatchSlots batch cid prompt m mode files isG false mi mq i us).map
        (fun ct => ct.row.model_name) = us.map (fun _ => m) := by
  intro i us
  induction us generalizing i with
  | nil => rfl
  | cons u rest ih =>
    simp only [dispatchSlots, List.map_cons]
    rw [dispatch_single_model_name]
    simp [ih]

theorem dispatchModels_gateway_names (nodes : List Node) (batch cid prompt mode : String)
    (files : List String) (idx : Nat → Nat → Nat) (mq : Nat → Nat → Option String) :
    ∀ (mi : Nat) (ml : List String),
      (dispatchModels nodes batch cid prompt mode files 1 idx mq mi ml).map
        (fun ct => ct.row.model_name) = ml := by
  intro mi ml
  induction ml generalizing mi with
  | nil => rfl
  | cons m rest ih =>
    simp only [dispatchModels]
    have hcc : (if containsSub "gemini" (pyLower m) = true then clampConcurrency 1 else 1) = 1 := by
      cases containsSub "gemini" (pyLower m) <;> rfl
    have hb2 : (containsSub "gemini" (pyLower m) && decide (1 < 1)) = false := by
      cases containsSub "gemini" (pyLower m) <;> rfl
    rw [hcc, hb2]
    obtain ⟨x, hx⟩ := List.length_eq_one.mp
      (selectTargetNodes_length nodes 1 (containsSub "gemini" (pyLower m)) (idx mi))
    rw [hx, List.map_append, dispatchSlots_names, ih]
    rfl

/-- C10, confirmed: the gateway handler invokes dispatch_tasks without
a gemini_concurrency argument (default 1), so through the public HTTP
surface every model — gemini included — fans out to exactly one task
whose model_name is exactly the parsed model identifier, with no
"(#k)" suffix; the concurrency-2 behaviour is unreachable from the
gateway. -/
theorem C10_gateway_single_fanout (nodes : List Node) (batch cid prompt model mode : String)
    (files : List String) (idx : Nat → Nat → Nat) (mq : Nat → Nat → Option String) :
    (create_chat_task_dispatch nodes batch cid prompt model mode files idx mq).map
        (fun ct => ct.row.model_name) = parseModelList model := by
  unfold create_chat_task_dispatch dispatch_tasks
  exact dispatchModels_gateway_names nodes batch cid prompt mode files idx mq 0
    (parseModelList model)

end AsyncChat
